import Mathlib

/-!
# SASL negotiation fragment of go-amqp (`sasl.go`)

A shallow embedding of `sasl.go`: the SASL outcome codes, the composite type
codes, the `SASLInit` composite and its `MarshalBinary`, the registration option
`ConnSASLPlain` and the PLAIN handler step `saslHandlerPlain.init`.

Conventions of the embedding.

* A Go `string` and a Go `[]byte` are both sequences of bytes: `List UInt8`.
* A Go `error` value is `Option Error`, `none` standing for `nil`.
* A Go function with several results returns a tuple, in the same order.
* Code the file calls but does not define (`Marshal`, `Unmarshal`,
  `marshalComposite`, `writeFrame`, `FrameTypeSASL`, the transport behind
  `c.net`, the `fmt` verb) is taken as a parameter.
* Pointers become explicit state passing: a step receives the state of the
  connection its handler points to and returns the new state.
-/

namespace Amqp

/-! ## Data model -/

/-- Go `[]byte`. -/
abbrev Bytes := List UInt8

/-- Go `string`: an immutable sequence of bytes. -/
abbrev GoString := List UInt8

/-- The type `Symbol`, a string type (`SASLMechanismPLAIN Symbol = "PLAIN"`). -/
abbrev Symbol := GoString

/-- A non-nil Go `error` value. -/
structure Error where
  msg : String
deriving DecidableEq, Repr

/-- The declaration `type SASLCode int`. -/
abbrev SASLCode := Int

/-- Connection authentication succeeded (`iota` = 0). -/
def CodeSASLOK : SASLCode := 0
/-- Authentication failed: problem with the supplied credentials (`iota` = 1). -/
def CodeSASLAuth : SASLCode := 1
/-- Authentication failed: system error (`iota` = 2). -/
def CodeSASLSys : SASLCode := 2
/-- Authentication failed: system error needing intervention (`iota` = 3). -/
def CodeSASLSysPerm : SASLCode := 3
/-- Authentication failed: transient system error (`iota` = 4). -/
def CodeSASLSysTemp : SASLCode := 4

/-- The declaration `type Type uint8` (the name `Type` is reserved in Lean). -/
abbrev CompositeType := UInt8

def TypeSASLMechanism : CompositeType := 0x40
def TypeSASLInit : CompositeType := 0x41
def TypeSASLChallenge : CompositeType := 0x42
def TypeSASLResponse : CompositeType := 0x43
def TypeSASLOutcome : CompositeType := 0x44

/-- The constant `SASLMechanismPLAIN Symbol = "PLAIN"`: bytes 50 4c 41 49 4e. -/
def SASLMechanismPLAIN : Symbol := [0x50, 0x4c, 0x41, 0x49, 0x4e]

/-- The interface `byteReader`, seen as the bytes that remain to be read. -/
abbrev byteReader := Bytes

/-- The method `func (s *SASLCode) UnmarshalBinary(r byteReader) error`, which is
`return Unmarshal(r, (*int)(s))`. `Unmarshal` at an `*int` target is a parameter:
from the reader and the integer currently stored behind the pointer it gives the
reader afterwards, the integer stored afterwards and the error. The method
returns that error and leaves behind the pointer what `Unmarshal` stored. -/
def SASLCode.UnmarshalBinary
    (Unmarshal : byteReader → Int → byteReader × Int × Option Error)
    (s : SASLCode) (r : byteReader) : byteReader × SASLCode × Option Error :=
  Unmarshal r s

/-- The dynamic value of a `field` (Go `interface{}`): the three types that
`SASLInit.MarshalBinary` stores there. -/
inductive FieldValue where
  | symbol (s : Symbol)
  | binary (b : Bytes)
  | string (s : GoString)
deriving DecidableEq, Repr

/-- The struct `field{value, omit}` handed to `marshalComposite`. -/
structure field where
  value : FieldValue
  «omit» : Bool
deriving DecidableEq, Repr

/-- The struct `SASLInit`. -/
structure SASLInit where
  Mechanism : Symbol
  InitialResponse : Bytes
  Hostname : GoString
deriving DecidableEq, Repr

/-- The method `func (si *SASLInit) MarshalBinary() ([]byte, error)`;
`marshalComposite` is a parameter. -/
def SASLInit.MarshalBinary
    (marshalComposite : CompositeType → List field → Bytes × Option Error)
    (si : SASLInit) : Bytes × Option Error :=
  marshalComposite TypeSASLInit [
    { value := .symbol si.Mechanism, «omit» := false },
    { value := .binary si.InitialResponse, «omit» := si.InitialResponse.length == 0 },
    { value := .string si.Hostname, «omit» := si.Hostname.length == 0 }
  ]

/-- The struct `saslHandlerPlain`. Its field `c *Conn` is the connection the
handler is registered on; the embedding passes that connection to `init`
explicitly. -/
structure saslHandlerPlain where
  username : GoString
  password : GoString
deriving DecidableEq, Repr

/-- The values of the function type `stateFunc` (a step that returns the next step,
`nil` being `none` of `Option stateFunc`), defunctionalised: the method value
`(&saslHandlerPlain{...}).init`, the method value `c.saslOutcome`, and any step
defined outside this file, told apart by a tag. -/
inductive stateFunc where
  | plainInit (h : saslHandlerPlain)
  | saslOutcome
  | foreign (tag : Nat)
deriving DecidableEq, Repr

/-- The fields of `Conn` that the file touches. `saslHandlers` is a Go map, `none`
being the nil map; `net` is the log of the `Write` calls made on the transport so
far, oldest first. -/
structure Conn where
  err : Option Error
  saslHandlers : Option (Symbol → Option stateFunc)
  net : List Bytes

/-- Reading a Go map: a nil map has no entry. -/
def Conn.handler (c : Conn) (k : Symbol) : Option stateFunc :=
  match c.saslHandlers with
  | none => none
  | some m => m k

/-- What `saslHandlerPlain.init` calls without defining it.

* `Marshal`: the encoder, at a `*SASLInit` argument.
* `writeFrame buf frameType channel data`: the contents of the buffer afterwards
  and the result the caller discards.
* `FrameTypeSASL`: the frame type constant.
* `netWrite log b`: the results `(n, err)` of `c.net.Write(b)` on a transport
  that has seen the writes `log`.
* `fmtHex b`: the text the verb `%# 02x` of `fmt` gives for the byte slice `b`. -/
structure Env where
  Marshal : SASLInit → Bytes × Option Error
  writeFrame : Bytes → Nat → Nat → Bytes → Bytes × Option Error
  FrameTypeSASL : Nat
  netWrite : List Bytes → Bytes → Nat × Option Error
  fmtHex : Bytes → String

/-- The state a handler step runs in: the connection, the text written to standard
output so far, and the log of the values handed to `Marshal` so far. -/
structure World where
  c : Conn
  stdout : String
  marshalCalls : List SASLInit

/-- The function `ConnSASLPlain(username, password string) ConnOpt`: the option it
returns, as a function from the connection to the connection afterwards and the
error. -/
def ConnSASLPlain (username password : GoString) : Conn → Conn × Option Error :=
  fun c =>
    let handlers : Symbol → Option stateFunc :=
      match c.saslHandlers with
      | none => fun _ => none
      | some m => m
    let handlers : Symbol → Option stateFunc := fun k =>
      if k = SASLMechanismPLAIN then
        some (stateFunc.plainInit { username := username, password := password })
      else handlers k
    ({ c with saslHandlers := some handlers }, none)

/-- The method `func (h *saslHandlerPlain) init() stateFunc`. The buffer `wr` taken
with `bufPool.New()` is empty after `wr.Reset()`. -/
def saslHandlerPlain.init (env : Env) (h : saslHandlerPlain) (w : World) :
    World × Option stateFunc :=
  let arg : SASLInit :=
    { Mechanism := [0x50, 0x4c, 0x41, 0x49, 0x4e],
      InitialResponse := [0x00] ++ h.username ++ [0x00] ++ h.password,
      Hostname := [] }
  let w := { w with marshalCalls := w.marshalCalls ++ [arg] }
  match env.Marshal arg with
  | (_, some err) => ({ w with c := { w.c with err := some err } }, none)
  | (saslInit, none) =>
    let wr : Bytes := []
    let wr := (env.writeFrame wr env.FrameTypeSASL 0 saslInit).1
    let w := { w with stdout := w.stdout ++ "Writing: " ++ env.fmtHex wr ++ "\n" }
    let res := env.netWrite w.c.net wr
    let w := { w with c := { w.c with net := w.c.net ++ [wr] } }
    match res.2 with
    | some err => ({ w with c := { w.c with err := some err } }, none)
    | none => (w, some stateFunc.saslOutcome)

/-! ## Vocabulary of the statements -/

/-- The value that `saslHandlerPlain.init` builds for the handler `h`, written with
the constant `SASLMechanismPLAIN` and with the separators in place. -/
def plainInitMessage (h : saslHandlerPlain) : SASLInit :=
  { Mechanism := SASLMechanismPLAIN,
    InitialResponse := 0x00 :: (h.username ++ 0x00 :: h.password),
    Hostname := [] }

/-- The bytes `Marshal` returns for the init message of `h`. -/
def plainInitBody (env : Env) (h : saslHandlerPlain) : Bytes :=
  (env.Marshal (plainInitMessage h)).1

/-- The error `Marshal` returns for the init message of `h`. -/
def plainInitEncodeErr (env : Env) (h : saslHandlerPlain) : Option Error :=
  (env.Marshal (plainInitMessage h)).2

/-- The contents of an empty buffer after `writeFrame` of the encoded init message
with frame type `FrameTypeSASL` and channel 0. -/
def plainInitFrame (env : Env) (h : saslHandlerPlain) : Bytes :=
  (env.writeFrame [] env.FrameTypeSASL 0 (plainInitBody env h)).1

/-- The error of the transport write of the frame, on the connection of `w`. -/
def plainInitWriteErr (env : Env) (h : saslHandlerPlain) (w : World) : Option Error :=
  (env.netWrite w.c.net (plainInitFrame env h)).2

/-! ## Reference collaborators

Concrete values for the parameters, used where a statement is evaluated at a
concrete input. -/

/-- A length as four bytes, most significant first. -/
def be32 (n : Nat) : Bytes :=
  [UInt8.ofNat (n / 16777216), UInt8.ofNat (n / 65536), UInt8.ofNat (n / 256), UInt8.ofNat n]

/-- Modelled from the spec: the wire form of one field of a composite, absent from
the file. Section 6: a Symbol has the symbol encoding, an opaque byte field the
binary encoding, a string field the string encoding; here the forms with a four
byte length (`b3` as in the frame dump of the source, `b0`, `b1`). A field marked
omissible that is still inside the list is the null value `40`. -/
def refEncodeField (f : field) : Bytes :=
  if f.«omit» then [0x40]
  else
    match f.value with
    | .symbol s => 0xb3 :: (be32 s.length ++ s)
    | .binary b => 0xb0 :: (be32 b.length ++ b)
    | .string s => 0xb1 :: (be32 s.length ++ s)

/-- Modelled from the spec: trailing field omission (section 4.1), absent from the
file. A field flagged omissible is dropped from the trailing end of the list only
if no later mandatory field follows. -/
def refTrimTrailing (fs : List field) : List field :=
  (fs.reverse.dropWhile (fun f => f.«omit»)).reverse

/-- Modelled from the spec: the composite encoder `marshalComposite`, absent from
the file. Sections 4.1 and 6: a described list tagged with the descriptor code of
the struct (`00 53 code`, then the list `d0 size count` as in the frame dump of the
source but with four byte size and count), the fields in declared order after
trailing omission. This reference encoder never fails. -/
def refMarshalComposite (code : CompositeType) (fs : List field) : Bytes × Option Error :=
  let kept := refTrimTrailing fs
  let body := be32 kept.length ++ (kept.map refEncodeField).flatten
  (0x00 :: 0x53 :: code :: 0xd0 :: (be32 body.length ++ body), none)

/-- Modelled from the spec: the frame writer `writeFrame`, absent from the file.
Sections 4.2 and 6: the encoded body wrapped in the transport frame envelope, a
frame type tag and a channel number; here four bytes of total size, the data
offset 2, the frame type, two bytes of channel, then the body, appended to the
buffer. This reference writer never fails. -/
def refWriteFrame (buf : Bytes) (frameType channel : Nat) (data : Bytes) :
    Bytes × Option Error :=
  (buf ++ be32 (8 + data.length) ++
    [0x02, UInt8.ofNat frameType, UInt8.ofNat (channel / 256), UInt8.ofNat channel] ++ data,
   none)

/-- A lower case hexadecimal digit. -/
def hexDigit (n : Nat) : Char :=
  ['0', '1', '2', '3', '4', '5', '6', '7', '8', '9', 'a', 'b', 'c', 'd', 'e', 'f'].getD n '0'

/-- One byte as `fmt` prints it under the flags `#` and space: `0x` and two digits. -/
def hexByte (b : UInt8) : String :=
  String.mk ['0', 'x', hexDigit (b.toNat / 16), hexDigit (b.toNat % 16)]

/-- The text of the verb `%# 02x` at a byte slice, as the Go library documents it:
each byte as `0x` and two digits, the bytes separated by one blank; the width 2
only shows for an empty slice, which is padded to two characters. -/
def goFmtHex : Bytes → String
  | [] => "00"
  | b :: bs => " ".intercalate ((b :: bs).map hexByte)

/-- A transport on which every write succeeds in full. -/
def netWriteOk (_log : List Bytes) (b : Bytes) : Nat × Option Error :=
  (b.length, none)

/-- A transport on which every write fails with the error `e`. -/
def netWriteFail (e : Error) (_log : List Bytes) (_b : Bytes) : Nat × Option Error :=
  (0, some e)

/-- An `Unmarshal` at an `*int` target for the unsigned byte form `50 xx` of the
wire: it stores the value `xx`; any other input is an error and stores nothing.
Modelled from the spec: section 3, the code is carried as a small integer on the
wire and decoded by the general unmarshal contract, absent from the file. -/
def refUnmarshalInt (r : byteReader) (cur : Int) : byteReader × Int × Option Error :=
  match r with
  | 0x50 :: b :: rest => (rest, (b.toNat : Int), none)
  | _ => (r, cur, some { msg := "unexpected type" })

/-- The reference environment: the encoder is `SASLInit.MarshalBinary` over the
reference composite encoder, the frame type of the negotiation phase is 1, and
the transport accepts every write. -/
def refEnv : Env :=
  { Marshal := SASLInit.MarshalBinary refMarshalComposite,
    writeFrame := refWriteFrame,
    FrameTypeSASL := 1,
    netWrite := netWriteOk,
    fmtHex := goFmtHex }

/-- The reference environment on a transport whose writes fail with `e`. -/
def refEnvNetFail (e : Error) : Env :=
  { refEnv with netWrite := netWriteFail e }

/-- The reference environment with an encoder that fails with `e`. -/
def refEnvEncodeFail (e : Error) : Env :=
  { refEnv with Marshal := fun _ => ([], some e) }

/-- A fresh connection: no error, nil handler map, nothing written. -/
def Conn.fresh : Conn :=
  { err := none, saslHandlers := none, net := [] }

/-- A fresh world around a fresh connection. -/
def World.fresh : World :=
  { c := Conn.fresh, stdout := "", marshalCalls := [] }

/-- The bytes of `alice`. -/
def alice : GoString := [0x61, 0x6c, 0x69, 0x63, 0x65]

/-- The bytes of `s3cret`. -/
def s3cret : GoString := [0x73, 0x33, 0x63, 0x72, 0x65, 0x74]

/-- A world whose connection already holds the error `e0`. -/
def World.failed (e0 : Error) : World :=
  { c := { Conn.fresh with err := some e0 }, stdout := "", marshalCalls := [] }

/-- A connection whose handler map holds one foreign step under the symbol `X`
(byte 58). -/
def Conn.withForeign : Conn :=
  { err := none,
    saslHandlers := some (fun k => if k = [0x58] then some (stateFunc.foreign 7) else none),
    net := [] }

/-! ## The three paths of `saslHandlerPlain.init` -/

theorem init_arg_eq (h : saslHandlerPlain) :
    ({ Mechanism := [0x50, 0x4c, 0x41, 0x49, 0x4e],
       InitialResponse := [0x00] ++ h.username ++ [0x00] ++ h.password,
       Hostname := [] } : SASLInit) = plainInitMessage h := by
  simp [plainInitMessage, SASLMechanismPLAIN]

theorem init_of_encode_err (env : Env) (h : saslHandlerPlain) (w : World) (e : Error)
    (he : plainInitEncodeErr env h = some e) :
    saslHandlerPlain.init env h w =
      ({ c := { w.c with err := some e }, stdout := w.stdout,
         marshalCalls := w.marshalCalls ++ [plainInitMessage h] }, none) := by
  unfold plainInitEncodeErr at he
  unfold saslHandlerPlain.init
  simp only [init_arg_eq]
  rcases hm : env.Marshal (plainInitMessage h) with ⟨b, r⟩
  rw [hm] at he
  simp only at he
  subst he
  rfl

theorem init_of_write_err (env : Env) (h : saslHandlerPlain) (w : World) (e : Error)
    (he : plainInitEncodeErr env h = none) (hw : plainInitWriteErr env h w = some e) :
    saslHandlerPlain.init env h w =
      ({ c := { w.c with err := some e, net := w.c.net ++ [plainInitFrame env h] },
         stdout := w.stdout ++ "Writing: " ++ env.fmtHex (plainInitFrame env h) ++ "\n",
         marshalCalls := w.marshalCalls ++ [plainInitMessage h] }, none) := by
  unfold plainInitWriteErr plainInitFrame plainInitBody at hw
  unfold plainInitEncodeErr at he
  unfold saslHandlerPlain.init plainInitFrame plainInitBody
  simp only [init_arg_eq]
  rcases hm : env.Marshal (plainInitMessage h) with ⟨b, r⟩
  rw [hm] at he hw
  simp only at he hw
  subst he
  simp only [hw]

theorem init_of_success (env : Env) (h : saslHandlerPlain) (w : World)
    (he : plainInitEncodeErr env h = none) (hw : plainInitWriteErr env h w = none) :
    saslHandlerPlain.init env h w =
      ({ c := { w.c with net := w.c.net ++ [plainInitFrame env h] },
         stdout := w.stdout ++ "Writing: " ++ env.fmtHex (plainInitFrame env h) ++ "\n",
         marshalCalls := w.marshalCalls ++ [plainInitMessage h] },
       some stateFunc.saslOutcome) := by
  unfold plainInitWriteErr plainInitFrame plainInitBody at hw
  unfold plainInitEncodeErr at he
  unfold saslHandlerPlain.init plainInitFrame plainInitBody
  simp only [init_arg_eq]
  rcases hm : env.Marshal (plainInitMessage h) with ⟨b, r⟩
  rw [hm] at he hw
  simp only at he hw
  subst he
  simp only [hw]

theorem init_marshalCalls (env : Env) (h : saslHandlerPlain) (w : World) :
    (saslHandlerPlain.init env h w).1.marshalCalls =
      w.marshalCalls ++ [plainInitMessage h] := by
  rcases he : plainInitEncodeErr env h with _ | e
  · rcases hw : plainInitWriteErr env h w with _ | e
    · rw [init_of_success env h w he hw]
    · rw [init_of_write_err env h w e he hw]
  · rw [init_of_encode_err env h w e he]

/-! ## C1: the init message -/

/-- C1: for every username `u` and password `p`, `saslHandlerPlain.init` hands the
encoder exactly one value, whose Mechanism is `PLAIN`, whose InitialResponse is the
byte 00, the bytes of `u`, the byte 00 and the bytes of `p` (of length
`len u + len p + 2`), and whose Hostname is empty. -/
theorem C1_init_message (env : Env) (h : saslHandlerPlain) (w : World) :
    ∃ m : SASLInit,
      (saslHandlerPlain.init env h w).1.marshalCalls = w.marshalCalls ++ [m] ∧
      m.Mechanism = [0x50, 0x4c, 0x41, 0x49, 0x4e] ∧
      m.Mechanism = SASLMechanismPLAIN ∧
      m.InitialResponse = [0x00] ++ h.username ++ [0x00] ++ h.password ∧
      m.InitialResponse.length = h.username.length + h.password.length + 2 ∧
      m.Hostname = [] := by
  refine ⟨plainInitMessage h, init_marshalCalls env h w, rfl, rfl, ?_, ?_, rfl⟩
  · simp [plainInitMessage]
  · simp [plainInitMessage]
    omega

/-- C1 at `alice` and `s3cret`: the value handed to the encoder has the initial
response 00 `alice` 00 `s3cret`. -/
theorem C1_init_message_alice :
    (saslHandlerPlain.init refEnv { username := alice, password := s3cret }
        World.fresh).1.marshalCalls =
      [{ Mechanism := [0x50, 0x4c, 0x41, 0x49, 0x4e],
         InitialResponse :=
           [0x00, 0x61, 0x6c, 0x69, 0x63, 0x65, 0x00, 0x73, 0x33, 0x63, 0x72, 0x65, 0x74],
         Hostname := [] }] := by
  obtain ⟨m, hcalls, hmech, _, hresp, _, hhost⟩ :=
    C1_init_message refEnv { username := alice, password := s3cret } World.fresh
  rw [hcalls]
  cases m
  simp only at hmech hresp hhost
  subst hmech hresp hhost
  rfl

/-! ## C2: the step returned on success -/

set_option maxRecDepth 100000 in
/-- C2 fails as stated: at `alice` and `s3cret` in the reference environment the
encoding and the write both succeed and `init` returns a step, not `nil`. -/
theorem C2_success_not_nil :
    plainInitEncodeErr refEnv { username := alice, password := s3cret } = none ∧
    plainInitWriteErr refEnv { username := alice, password := s3cret } World.fresh = none ∧
    (saslHandlerPlain.init refEnv { username := alice, password := s3cret }
        World.fresh).2 ≠ none := by
  decide

/-- C2, amended: when encoding the init message and writing the frame both
succeed, `saslHandlerPlain.init` returns the outcome reading step `c.saslOutcome`
of the connection as the next step. -/
theorem C2_success_returns_saslOutcome (env : Env) (h : saslHandlerPlain) (w : World)
    (he : plainInitEncodeErr env h = none) (hw : plainInitWriteErr env h w = none) :
    (saslHandlerPlain.init env h w).2 = some stateFunc.saslOutcome := by
  rw [init_of_success env h w he hw]

set_option maxRecDepth 100000 in
/-- C2, amended, at `alice` and `s3cret` in the reference environment. -/
theorem C2_success_returns_saslOutcome_witness :
    (saslHandlerPlain.init refEnv { username := alice, password := s3cret }
        World.fresh).2 = some stateFunc.saslOutcome :=
  C2_success_returns_saslOutcome refEnv { username := alice, password := s3cret }
    World.fresh (by decide) (by decide)

/-! ## C3: the diagnostic output -/

set_option maxRecDepth 100000 in
/-- C3 fails as stated: in the reference environment the text printed for the
user `a` differs between the passwords `b` and `c`, and the text printed for the
password `c` differs between the users `a` and `b`. -/
theorem C3_diagnostic_depends_on_credentials :
    (saslHandlerPlain.init refEnv { username := [0x61], password := [0x62] }
        World.fresh).1.stdout ≠
      (saslHandlerPlain.init refEnv { username := [0x61], password := [0x63] }
        World.fresh).1.stdout ∧
    (saslHandlerPlain.init refEnv { username := [0x61], password := [0x63] }
        World.fresh).1.stdout ≠
      (saslHandlerPlain.init refEnv { username := [0x62], password := [0x63] }
        World.fresh).1.stdout := by
  decide

/-- C3, amended: the diagnostic text of the step is fixed by what the encoder
returns for the init message. When the encoder returns the same result for two
credential pairs, the step prints the same text from the same state; when encoding
fails nothing is printed; when it succeeds the step appends `Writing: `, the
hexadecimal dump of the frame bytes and a newline. -/
theorem C3_diagnostic_text (env : Env) (h1 h2 : saslHandlerPlain) (w : World)
    (hm : env.Marshal (plainInitMessage h1) = env.Marshal (plainInitMessage h2)) :
    (saslHandlerPlain.init env h1 w).1.stdout = (saslHandlerPlain.init env h2 w).1.stdout ∧
    (plainInitEncodeErr env h1 ≠ none → (saslHandlerPlain.init env h1 w).1.stdout = w.stdout) ∧
    (plainInitEncodeErr env h1 = none →
      (saslHandlerPlain.init env h1 w).1.stdout =
        w.stdout ++ "Writing: " ++
          env.fmtHex (env.writeFrame [] env.FrameTypeSASL 0
            (env.Marshal (plainInitMessage h1)).1).1 ++ "\n") := by
  have shape : ∀ h : saslHandlerPlain,
      (plainInitEncodeErr env h ≠ none → (saslHandlerPlain.init env h w).1.stdout = w.stdout) ∧
      (plainInitEncodeErr env h = none →
        (saslHandlerPlain.init env h w).1.stdout =
          w.stdout ++ "Writing: " ++
            env.fmtHex (env.writeFrame [] env.FrameTypeSASL 0
              (env.Marshal (plainInitMessage h)).1).1 ++ "\n") := by
    intro h
    rcases he : plainInitEncodeErr env h with _ | e
    · refine ⟨fun hne => absurd rfl hne, fun _ => ?_⟩
      rcases hw : plainInitWriteErr env h w with _ | e
      · rw [init_of_success env h w he hw]; rfl
      · rw [init_of_write_err env h w e he hw]; rfl
    · refine ⟨fun _ => ?_, fun hn => by cases hn⟩
      rw [init_of_encode_err env h w e he]
  refine ⟨?_, (shape h1).1, (shape h1).2⟩
  rcases he : plainInitEncodeErr env h1 with _ | e
  · have he2 : plainInitEncodeErr env h2 = none := by
      unfold plainInitEncodeErr at he ⊢
      rw [← hm]; exact he
    rw [(shape h1).2 he, (shape h2).2 he2, hm]
  · have he2 : plainInitEncodeErr env h2 ≠ none := by
      unfold plainInitEncodeErr at he ⊢
      rw [← hm, he]; simp
    have he1 : plainInitEncodeErr env h1 ≠ none := by rw [he]; simp
    rw [(shape h1).1 he1, (shape h2).1 he2]

set_option maxRecDepth 100000 in
/-- C3, amended, in the reference environment, where the encoding succeeds and the
dump is printed: the distinct pairs (`a` 00 `b`, `c`) and (`a`, `b` 00 `c`) have
the same init message, so the encoder returns the same bytes for both, and the
step prints the same text for both, the dump of the 41 byte frame. -/
theorem C3_diagnostic_text_witness :
    ({ username := [0x61, 0x00, 0x62], password := [0x63] } : saslHandlerPlain) ≠
      { username := [0x61], password := [0x62, 0x00, 0x63] } ∧
    plainInitEncodeErr refEnv { username := [0x61, 0x00, 0x62], password := [0x63] } = none ∧
    (saslHandlerPlain.init refEnv { username := [0x61, 0x00, 0x62], password := [0x63] }
        World.fresh).1.stdout =
      (saslHandlerPlain.init refEnv { username := [0x61], password := [0x62, 0x00, 0x63] }
        World.fresh).1.stdout ∧
    (saslHandlerPlain.init refEnv { username := [0x61, 0x00, 0x62], password := [0x63] }
        World.fresh).1.stdout =
      "Writing: 0x00 0x00 0x00 0x29 0x02 0x01 0x00 0x00 0x00 0x53 0x41 0xd0 0x00 0x00 0x00 0x19 0x00 0x00 0x00 0x02 0xb3 0x00 0x00 0x00 0x05 0x50 0x4c 0x41 0x49 0x4e 0xb0 0x00 0x00 0x00 0x06 0x00 0x61 0x00 0x62 0x00 0x63\n" :=
  let r := C3_diagnostic_text refEnv
    { username := [0x61, 0x00, 0x62], password := [0x63] }
    { username := [0x61], password := [0x62, 0x00, 0x63] }
    World.fresh (by decide)
  ⟨by decide, by decide, r.1, (r.2.2 (by decide)).trans (by decide)⟩

/-! ## C4: an encode or transport error is stored unchanged -/

/-- C4: if encoding the init message fails with `e`, or encoding succeeds and the
transport write fails with `e`, then `saslHandlerPlain.init` stores exactly `e` in
the error slot of the connection and returns no further step. -/
theorem C4_error_stored (env : Env) (h : saslHandlerPlain) (w : World) (e : Error)
    (hfail : plainInitEncodeErr env h = some e ∨
      (plainInitEncodeErr env h = none ∧ plainInitWriteErr env h w = some e)) :
    (saslHandlerPlain.init env h w).1.c.err = some e ∧
    (saslHandlerPlain.init env h w).2 = none ∧
    (saslHandlerPlain.init env h w).2 ≠ some stateFunc.saslOutcome := by
  rcases hfail with he | ⟨he, hw⟩
  · rw [init_of_encode_err env h w e he]
    exact ⟨rfl, rfl, by simp⟩
  · rw [init_of_write_err env h w e he hw]
    exact ⟨rfl, rfl, by simp⟩

set_option maxRecDepth 100000 in
/-- C4 at `alice` and `s3cret`: on a transport that fails with `broken pipe` the
slot holds that error, and with an encoder that fails with `encode` it holds that
one; no step is returned either time. -/
theorem C4_error_stored_witness :
    ((saslHandlerPlain.init (refEnvNetFail { msg := "broken pipe" })
        { username := alice, password := s3cret } World.fresh).1.c.err
        = some { msg := "broken pipe" } ∧
      (saslHandlerPlain.init (refEnvNetFail { msg := "broken pipe" })
        { username := alice, password := s3cret } World.fresh).2 = none) ∧
    ((saslHandlerPlain.init (refEnvEncodeFail { msg := "encode" })
        { username := alice, password := s3cret } World.fresh).1.c.err
        = some { msg := "encode" } ∧
      (saslHandlerPlain.init (refEnvEncodeFail { msg := "encode" })
        { username := alice, password := s3cret } World.fresh).2 = none) :=
  ⟨let r := C4_error_stored (refEnvNetFail { msg := "broken pipe" })
      { username := alice, password := s3cret } World.fresh { msg := "broken pipe" }
      (Or.inr ⟨by decide, by decide⟩)
   ⟨r.1, r.2.1⟩,
   let r := C4_error_stored (refEnvEncodeFail { msg := "encode" })
      { username := alice, password := s3cret } World.fresh { msg := "encode" }
      (Or.inl (by decide))
   ⟨r.1, r.2.1⟩⟩

/-! ## C5: a connection that already holds an error -/

set_option maxRecDepth 100000 in
/-- C5 fails as stated: from a connection whose slot holds `earlier`, on a
transport that fails with `broken pipe`, `init` leaves `broken pipe` in the slot
and has made one write on the transport. -/
theorem C5_earlier_error_replaced :
    (World.failed { msg := "earlier" }).c.err = some { msg := "earlier" } ∧
    (saslHandlerPlain.init (refEnvNetFail { msg := "broken pipe" })
        { username := alice, password := s3cret }
        (World.failed { msg := "earlier" })).1.c.err = some { msg := "broken pipe" } ∧
    (saslHandlerPlain.init (refEnvNetFail { msg := "broken pipe" })
        { username := alice, password := s3cret }
        (World.failed { msg := "earlier" })).1.c.err ≠ some { msg := "earlier" } ∧
    (World.failed { msg := "earlier" }).c.net.length = 0 ∧
    (saslHandlerPlain.init (refEnvNetFail { msg := "broken pipe" })
        { username := alice, password := s3cret }
        (World.failed { msg := "earlier" })).1.c.net.length = 1 := by
  decide

/-- C5, amended: `saslHandlerPlain.init` does not consult the error slot. From a
connection whose slot holds `e0`: the slot still holds `e0` afterwards when the
encoding and the write both succeed; an encode error or a write error `e` is
stored in its place; and the frame is written on the transport whenever the
encoding succeeds, none being written when the encoding fails. -/
theorem C5_error_slot_not_consulted (env : Env) (h : saslHandlerPlain) (w : World)
    (e0 : Error) (h0 : w.c.err = some e0) :
    (plainInitEncodeErr env h = none → plainInitWriteErr env h w = none →
      (saslHandlerPlain.init env h w).1.c.err = some e0) ∧
    (∀ e, plainInitEncodeErr env h = some e →
      (saslHandlerPlain.init env h w).1.c.err = some e) ∧
    (∀ e, plainInitEncodeErr env h = none → plainInitWriteErr env h w = some e →
      (saslHandlerPlain.init env h w).1.c.err = some e) ∧
    (plainInitEncodeErr env h = none →
      (saslHandlerPlain.init env h w).1.c.net = w.c.net ++ [plainInitFrame env h]) ∧
    (∀ e, plainInitEncodeErr env h = some e →
      (saslHandlerPlain.init env h w).1.c.net = w.c.net) := by
  refine ⟨?_, ?_, ?_, ?_, ?_⟩
  · intro he hw
    rw [init_of_success env h w he hw]
    exact h0
  · intro e he
    rw [init_of_encode_err env h w e he]
  · intro e he hw
    rw [init_of_write_err env h w e he hw]
  · intro he
    rcases hw : plainInitWriteErr env h w with _ | e
    · rw [init_of_success env h w he hw]
    · rw [init_of_write_err env h w e he hw]
  · intro e he
    rw [init_of_encode_err env h w e he]

set_option maxRecDepth 100000 in
/-- C5, amended, from a connection that holds `earlier`: in the reference
environment the slot keeps `earlier` and one frame is written. -/
theorem C5_error_slot_not_consulted_witness :
    (saslHandlerPlain.init refEnv { username := alice, password := s3cret }
        (World.failed { msg := "earlier" })).1.c.err = some { msg := "earlier" } ∧
    (saslHandlerPlain.init refEnv { username := alice, password := s3cret }
        (World.failed { msg := "earlier" })).1.c.net =
      (World.failed { msg := "earlier" }).c.net ++
        [plainInitFrame refEnv { username := alice, password := s3cret }] :=
  let r := C5_error_slot_not_consulted refEnv { username := alice, password := s3cret }
    (World.failed { msg := "earlier" }) { msg := "earlier" } rfl
  ⟨r.1 (by decide) (by decide), r.2.2.2.1 (by decide)⟩

/-! ## C6: decoding a SASL code -/

/-- C6 fails as stated: the reference `Unmarshal` decodes the bytes 50 05 as the
integer 5, outside 0..4, and `SASLCode.UnmarshalBinary` returns no error and
stores 5, which is none of the five codes. -/
theorem C6_out_of_range_accepted :
    (refUnmarshalInt [0x50, 0x05] 0).2.2 = none ∧
    (refUnmarshalInt [0x50, 0x05] 0).2.1 = 5 ∧
    ¬ ((0 : Int) ≤ 5 ∧ (5 : Int) ≤ 4) ∧
    (SASLCode.UnmarshalBinary refUnmarshalInt 0 [0x50, 0x05]).2.2 = none ∧
    (SASLCode.UnmarshalBinary refUnmarshalInt 0 [0x50, 0x05]).2.1 = 5 ∧
    (SASLCode.UnmarshalBinary refUnmarshalInt 0 [0x50, 0x05]).2.1 ∉
      [CodeSASLOK, CodeSASLAuth, CodeSASLSys, CodeSASLSysPerm, CodeSASLSysTemp] := by
  decide

/-- C6, amended: `SASLCode` is an integer type with the five named codes OK = 0,
Auth = 1, Sys = 2, SysPerm = 3, SysTemp = 4, and `SASLCode.UnmarshalBinary` hands
the decoding to `Unmarshal` on the underlying integer without a range check: when
`Unmarshal` decodes the integer `n` it returns no error and stores `n`, which for
`n` in 0..4 is the code numbered `n`; when `Unmarshal` fails with `e` it returns
`e`. -/
theorem C6_unmarshal_delegates
    (Unmarshal : byteReader → Int → byteReader × Int × Option Error)
    (s : SASLCode) (r : byteReader) (n : Int)
    (hn : (Unmarshal r s).2.1 = n) :
    (CodeSASLOK = 0 ∧ CodeSASLAuth = 1 ∧ CodeSASLSys = 2 ∧ CodeSASLSysPerm = 3 ∧
      CodeSASLSysTemp = 4) ∧
    ((Unmarshal r s).2.2 = none →
      (SASLCode.UnmarshalBinary Unmarshal s r).2.2 = none ∧
      (SASLCode.UnmarshalBinary Unmarshal s r).2.1 = n ∧
      (0 ≤ n → n ≤ 4 →
        [CodeSASLOK, CodeSASLAuth, CodeSASLSys, CodeSASLSysPerm, CodeSASLSysTemp].get?
          n.toNat = some (SASLCode.UnmarshalBinary Unmarshal s r).2.1)) ∧
    (∀ e, (Unmarshal r s).2.2 = some e →
      (SASLCode.UnmarshalBinary Unmarshal s r).2.2 = some e) := by
  refine ⟨⟨rfl, rfl, rfl, rfl, rfl⟩, ?_, ?_⟩
  · intro hok
    refine ⟨hok, hn, ?_⟩
    intro h0 h4
    have hv : (SASLCode.UnmarshalBinary Unmarshal s r).2.1 = n := hn
    rw [hv]
    have hcases : n = 0 ∨ n = 1 ∨ n = 2 ∨ n = 3 ∨ n = 4 := by omega
    rcases hcases with h | h | h | h | h <;> subst h <;> rfl
  · intro e he
    exact he

/-- C6, amended, at the bytes 50 03 and at the bytes 50 05 of the reference
`Unmarshal`: the code 3 and the integer 5 are both stored without error. -/
theorem C6_unmarshal_delegates_witness :
    ((SASLCode.UnmarshalBinary refUnmarshalInt 0 [0x50, 0x03]).2.2 = none ∧
      (SASLCode.UnmarshalBinary refUnmarshalInt 0 [0x50, 0x03]).2.1 = CodeSASLSysPerm) ∧
    ((SASLCode.UnmarshalBinary refUnmarshalInt 0 [0x50, 0x05]).2.2 = none ∧
      (SASLCode.UnmarshalBinary refUnmarshalInt 0 [0x50, 0x05]).2.1 = 5) :=
  ⟨let r := (C6_unmarshal_delegates refUnmarshalInt 0 [0x50, 0x03] 3 (by decide)).2.1
      (by decide)
   ⟨r.1, r.2.1⟩,
   let r := (C6_unmarshal_delegates refUnmarshalInt 0 [0x50, 0x05] 5 (by decide)).2.1
      (by decide)
   ⟨r.1, r.2.1⟩⟩

/-! ## C7: the fields of `SASLInit.MarshalBinary` -/

/-- C7: for every `SASLInit`, `SASLInit.MarshalBinary` passes the composite encoder
the type code 41 and three fields in the order Mechanism, InitialResponse,
Hostname; Mechanism is never marked omissible, InitialResponse and Hostname are
marked omissible exactly when they have length 0; so the number of fields not
marked omissible is 1 when both optional fields are empty and 3 when both are
populated. -/
theorem C7_marshal_fields
    (marshalComposite : CompositeType → List field → Bytes × Option Error)
    (si : SASLInit) :
    ∃ f1 f2 f3 : field,
      SASLInit.MarshalBinary marshalComposite si
        = marshalComposite TypeSASLInit [f1, f2, f3] ∧
      TypeSASLInit = 0x41 ∧
      f1.value = FieldValue.symbol si.Mechanism ∧ f1.«omit» = false ∧
      f2.value = FieldValue.binary si.InitialResponse ∧
      (f2.«omit» = true ↔ si.InitialResponse.length = 0) ∧
      f3.value = FieldValue.string si.Hostname ∧
      (f3.«omit» = true ↔ si.Hostname.length = 0) ∧
      (si.InitialResponse.length = 0 → si.Hostname.length = 0 →
        ([f1, f2, f3].filter (fun f => !f.«omit»)).length = 1) ∧
      (0 < si.InitialResponse.length → 0 < si.Hostname.length →
        ([f1, f2, f3].filter (fun f => !f.«omit»)).length = 3) := by
  refine ⟨{ value := .symbol si.Mechanism, «omit» := false },
    { value := .binary si.InitialResponse, «omit» := si.InitialResponse.length == 0 },
    { value := .string si.Hostname, «omit» := si.Hostname.length == 0 },
    rfl, rfl, rfl, rfl, rfl, by simp, rfl, by simp, ?_, ?_⟩
  · intro h1 h2
    simp [h1, h2]
  · intro h1 h2
    have e1 : si.InitialResponse ≠ [] := by
      intro hc; rw [hc] at h1; simp at h1
    have e2 : si.Hostname ≠ [] := by
      intro hc; rw [hc] at h2; simp at h2
    simp [e1, e2]

/-- C7 at an init message with only the mechanism, over the reference composite
encoder: three fields are passed, the last two marked omissible, one field not
marked omissible. -/
theorem C7_marshal_fields_witness :
    ∃ f1 f2 f3 : field,
      SASLInit.MarshalBinary refMarshalComposite
          { Mechanism := SASLMechanismPLAIN, InitialResponse := [], Hostname := [] }
        = refMarshalComposite TypeSASLInit [f1, f2, f3] ∧
      f1.«omit» = false ∧ f2.«omit» = true ∧ f3.«omit» = true ∧
      ([f1, f2, f3].filter (fun f => !f.«omit»)).length = 1 := by
  obtain ⟨f1, f2, f3, hcall, _, _, ho1, _, ho2, _, ho3, hcount, _⟩ :=
    C7_marshal_fields refMarshalComposite
      { Mechanism := SASLMechanismPLAIN, InitialResponse := [], Hostname := [] }
  exact ⟨f1, f2, f3, hcall, ho1, ho2.mpr rfl, ho3.mpr rfl, hcount rfl rfl⟩

set_option maxRecDepth 100000 in
/-- The reference composite encoder on two init messages: with only the mechanism
the list has 1 field and 22 bytes, with the initial response of `alice` and a host
name `h` it has 3 fields and 46 bytes. -/
theorem refMarshal_lengths :
    (SASLInit.MarshalBinary refMarshalComposite
        { Mechanism := SASLMechanismPLAIN, InitialResponse := [], Hostname := [] }).1
      = [0x00, 0x53, 0x41, 0xd0, 0, 0, 0, 14, 0, 0, 0, 1,
         0xb3, 0, 0, 0, 5, 0x50, 0x4c, 0x41, 0x49, 0x4e] ∧
    (SASLInit.MarshalBinary refMarshalComposite
        { Mechanism := SASLMechanismPLAIN,
          InitialResponse := 0 :: (alice ++ 0 :: s3cret), Hostname := [0x68] }).1.length
      = 46 := by
  decide

/-! ## C8: registering the PLAIN handler -/

/-- C8: for every connection, with a nil, empty or populated handler map, and every
username and password, the option returned by `ConnSASLPlain` returns no error,
leaves an entry under `PLAIN` (the `init` step of a handler with these
credentials), leaves the entry or absence of an entry of every other symbol as it
was, and touches nothing else of the connection; on a connection without any
registered mechanism, `PLAIN` is the only key afterwards. -/
theorem C8_register_plain (c : Conn) (username password : GoString) :
    (ConnSASLPlain username password c).2 = none ∧
    (ConnSASLPlain username password c).1.saslHandlers ≠ none ∧
    (ConnSASLPlain username password c).1.handler SASLMechanismPLAIN =
      some (stateFunc.plainInit { username := username, password := password }) ∧
    (∀ k : Symbol, k ≠ SASLMechanismPLAIN →
      (ConnSASLPlain username password c).1.handler k = c.handler k) ∧
    (ConnSASLPlain username password c).1.err = c.err ∧
    (ConnSASLPlain username password c).1.net = c.net ∧
    ((∀ k : Symbol, c.handler k = none) →
      ∀ k : Symbol,
        (ConnSASLPlain username password c).1.handler k ≠ none ↔ k = SASLMechanismPLAIN) := by
  have hother : ∀ k : Symbol, k ≠ SASLMechanismPLAIN →
      (ConnSASLPlain username password c).1.handler k = c.handler k := by
    intro k hk
    unfold ConnSASLPlain Conn.handler
    cases c.saslHandlers <;> simp [hk]
  have hplain : (ConnSASLPlain username password c).1.handler SASLMechanismPLAIN =
      some (stateFunc.plainInit { username := username, password := password }) := by
    unfold ConnSASLPlain Conn.handler
    simp
  refine ⟨rfl, by simp [ConnSASLPlain], hplain, hother, rfl, rfl, ?_⟩
  intro hempty k
  constructor
  · intro hne
    by_contra hk
    exact hne (by rw [hother k hk]; exact hempty k)
  · intro hk
    rw [hk, hplain]
    simp

/-- C8 at concrete connections: on a fresh connection (nil map) `PLAIN` is
registered and the symbol `X` is not; on a connection that holds a foreign step
under `X`, that step is still there next to `PLAIN`. -/
theorem C8_register_plain_witness :
    ((ConnSASLPlain alice s3cret Conn.fresh).1.handler SASLMechanismPLAIN =
        some (stateFunc.plainInit { username := alice, password := s3cret }) ∧
      ((ConnSASLPlain alice s3cret Conn.fresh).1.handler [0x58] ≠ none ↔
        ([0x58] : Symbol) = SASLMechanismPLAIN)) ∧
    (ConnSASLPlain alice s3cret Conn.withForeign).1.handler [0x58] =
      some (stateFunc.foreign 7) :=
  ⟨⟨(C8_register_plain Conn.fresh alice s3cret).2.2.1,
    (C8_register_plain Conn.fresh alice s3cret).2.2.2.2.2.2 (fun _ => rfl) [0x58]⟩,
   ((C8_register_plain Conn.withForeign alice s3cret).2.2.2.1 [0x58] (by decide)).trans
     (by decide)⟩

/-! ## C9: the one write on the transport -/

/-- C9: `saslHandlerPlain.init` performs exactly one write on the output stream of
the connection when encoding the init message succeeds, whether or not that write
succeeds, and no write when encoding fails; the bytes written are what
`writeFrame` leaves in an empty buffer for the frame type `FrameTypeSASL`, the
channel 0 and the encoded init message as body. -/
theorem C9_one_write (env : Env) (h : saslHandlerPlain) (w : World) :
    ((env.Marshal (plainInitMessage h)).2 = none →
      (saslHandlerPlain.init env h w).1.c.net =
        w.c.net ++ [(env.writeFrame [] env.FrameTypeSASL 0
          (env.Marshal (plainInitMessage h)).1).1] ∧
      (saslHandlerPlain.init env h w).1.c.net.length = w.c.net.length + 1) ∧
    ((env.Marshal (plainInitMessage h)).2 ≠ none →
      (saslHandlerPlain.init env h w).1.c.net = w.c.net) := by
  constructor
  · intro he
    have he' : plainInitEncodeErr env h = none := he
    rcases hw : plainInitWriteErr env h w with _ | e
    · rw [init_of_success env h w he' hw]
      exact ⟨rfl, by simp⟩
    · rw [init_of_write_err env h w e he' hw]
      exact ⟨rfl, by simp⟩
  · intro he
    rcases he' : plainInitEncodeErr env h with _ | e
    · exact absurd he' he
    · rw [init_of_encode_err env h w e he']

set_option maxRecDepth 100000 in
/-- C9 at `alice` and `s3cret`: in the reference environment the one write is the
48 byte frame of the init message; with a failing encoder nothing is written. -/
theorem C9_one_write_witness :
    (saslHandlerPlain.init refEnv { username := alice, password := s3cret }
        World.fresh).1.c.net =
      [[0, 0, 0, 48, 2, 1, 0, 0,
        0x00, 0x53, 0x41, 0xd0, 0, 0, 0, 32, 0, 0, 0, 2,
        0xb3, 0, 0, 0, 5, 0x50, 0x4c, 0x41, 0x49, 0x4e,
        0xb0, 0, 0, 0, 13, 0, 0x61, 0x6c, 0x69, 0x63, 0x65, 0, 0x73, 0x33, 0x63, 0x72,
        0x65, 0x74]] ∧
    (saslHandlerPlain.init (refEnvEncodeFail { msg := "encode" })
        { username := alice, password := s3cret } World.fresh).1.c.net = [] :=
  ⟨(((C9_one_write refEnv { username := alice, password := s3cret } World.fresh).1
      (by decide)).1).trans (by decide),
   (C9_one_write (refEnvEncodeFail { msg := "encode" })
      { username := alice, password := s3cret } World.fresh).2 (by decide)⟩

/-! ## C10: the initial response determines the credentials -/

theorem nul_split_unique (u1 u2 p1 p2 : List UInt8)
    (h1 : (0 : UInt8) ∉ u1) (h2 : (0 : UInt8) ∉ u2)
    (heq : u1 ++ 0 :: p1 = u2 ++ 0 :: p2) : u1 = u2 ∧ p1 = p2 := by
  induction u1 generalizing u2 with
  | nil =>
    cases u2 with
    | nil => simpa using heq
    | cons b t =>
      simp only [List.nil_append, List.cons_append, List.cons.injEq] at heq
      exact absurd (by rw [← heq.1]; exact List.mem_cons_self _ _) h2
  | cons a t ih =>
    cases u2 with
    | nil =>
      simp only [List.nil_append, List.cons_append, List.cons.injEq] at heq
      exact absurd (by rw [heq.1]; exact List.mem_cons_self _ _) h1
    | cons b t2 =>
      simp only [List.cons_append, List.cons.injEq] at heq
      have ht : (0 : UInt8) ∉ t := fun hm => h1 (List.mem_cons_of_mem _ hm)
      have ht2 : (0 : UInt8) ∉ t2 := fun hm => h2 (List.mem_cons_of_mem _ hm)
      obtain ⟨hu, hp⟩ := ih t2 ht ht2 heq.2
      exact ⟨by rw [heq.1, hu], hp⟩

/-- C10: for all usernames `u1`, `u2` without a 00 byte and all passwords `p1`,
`p2`, if the initial responses that `saslHandlerPlain.init` builds for the two
pairs are equal, then `u1 = u2` and `p1 = p2`. -/
theorem C10_initial_response_injective (u1 u2 p1 p2 : GoString)
    (h1 : (0 : UInt8) ∉ u1) (h2 : (0 : UInt8) ∉ u2)
    (heq : (plainInitMessage { username := u1, password := p1 }).InitialResponse =
      (plainInitMessage { username := u2, password := p2 }).InitialResponse) :
    u1 = u2 ∧ p1 = p2 := by
  simp only [plainInitMessage, List.cons.injEq, true_and] at heq
  exact nul_split_unique u1 u2 p1 p2 h1 h2 heq

/-- C10 at `alice` and `s3cret` against themselves. -/
theorem C10_initial_response_injective_witness :
    (0 : UInt8) ∉ alice ∧ alice = alice ∧ s3cret = s3cret :=
  ⟨by decide,
   C10_initial_response_injective alice alice s3cret s3cret (by decide) (by decide) rfl⟩

/-- The remark of C10: a username with a 00 byte is not rejected, and the pairs
(`a` 00 `b`, `c`) and (`a`, `b` 00 `c`) are handed to the encoder with the same
initial response. -/
theorem plain_collision_with_nul :
    (plainInitMessage { username := [0x61, 0x00, 0x62], password := [0x63] }).InitialResponse =
      (plainInitMessage { username := [0x61], password := [0x62, 0x00, 0x63] }).InitialResponse ∧
    (saslHandlerPlain.init refEnv { username := [0x61, 0x00, 0x62], password := [0x63] }
        World.fresh).1.marshalCalls =
      (saslHandlerPlain.init refEnv { username := [0x61], password := [0x62, 0x00, 0x63] }
        World.fresh).1.marshalCalls ∧
    ([0x61, 0x00, 0x62] : GoString) ≠ [0x61] := by
  refine ⟨by decide, ?_, by decide⟩
  rw [init_marshalCalls, init_marshalCalls]
  decide

end Amqp
